import Mathlib

/-!
Shallow embedding of the reactor core of the `fileserver` repository
(net/Timer.cpp, net/TimerQueue.cpp, the Channel / SelectPoller / TcpConnection
translation units) together with theorems settling the specification claims.

Machine integers of the source (`int64_t` timestamps, sequence numbers and
repeat counts, `int` event masks) are modelled as `Int` / `Nat`; none of the
verified operations can overflow a 64-bit quantity on the inputs considered.
Pointers (`Timer*`, `Channel*`) are modelled as numeric identities (`addr`,
`ChannelId`): the source orders and compares them only by value.
-/

namespace Fileserver

/-- Model of `Timestamp` (base/Timestamp.h): a signed 64-bit microsecond count with
total arithmetic and total ordering.  Modelled as `Int`. -/
abbrev Timestamp := Int

/-! ### Timer (net/Timer.h, net/Timer.cpp) -/

/-- The mutable state of one `net::Timer`.  The callback itself is opaque to
this development: a firing is recorded by the timer's sequence number. -/
structure Timer where
  expiration : Timestamp
  interval : Int
  repeatCount : Int
  sequence : Int
  canceled : Bool
  deriving Repr, DecidableEq

/-- Model of `Timer::run` (net/Timer.cpp:34-52).  Returns the mutated timer and whether
the callback fired.  A cancelled timer returns immediately; a timer with
`repeatCount != -1` decrements it and, if it reached 0, returns before the
expiration is advanced; otherwise `expiration += interval`. -/
def Timer.run (t : Timer) : Timer × Bool :=
  if t.canceled then (t, false)
  else
    if t.repeatCount ≠ -1 then
      let t' := { t with repeatCount := t.repeatCount - 1 }
      if t'.repeatCount = 0 then (t', true)
      else ({ t' with expiration := t'.expiration + t'.interval }, true)
    else ({ t with expiration := t.expiration + t.interval }, true)

/-! ### TimerQueue (net/TimerQueue.h, net/TimerQueue.cpp)

`TimerQueue::Entry = std::pair<Timestamp, Timer*>` and
`TimerList = std::set<Entry>`: the set is ordered lexicographically by the
pair, i.e. by `(Timestamp, Timer*)` where the second component is the raw
pointer value.  We model the pointer value as `addr` and the `std::set` as a
strictly sorted list of entries. -/

/-- One element of `TimerQueue::m_timers`.  `key` is the `Timestamp` component
of the `std::pair` key (immutable once inserted, even when `Timer::run` later
mutates `timer.expiration` through the pointer); `addr` is the `Timer*`
value. -/
structure Entry where
  key : Timestamp
  addr : Int
  timer : Timer
  deriving Repr, DecidableEq

/-- Strict `std::less` order on `Entry`: lexicographic on `(key, addr)`,
exactly how `std::pair<Timestamp, Timer*>` compares. -/
def entryLtb (a b : Entry) : Bool :=
  a.key < b.key || (a.key == b.key && a.addr < b.addr)

/-- Ordered insertion into the sorted-list model of `std::set<Entry>`
(`TimerQueue::insert`, net/TimerQueue.cpp:117-123, which does
`m_timers.insert(Entry(timer->expiration(), timer))`).  An entry comparing
equal to an existing one is not inserted (set semantics). -/
def insertEntry (e : Entry) : List Entry → List Entry
  | [] => [e]
  | x :: xs =>
    if entryLtb e x then e :: x :: xs
    else if entryLtb x e then x :: insertEntry e xs
    else x :: xs

/-- Model of `TimerQueue::addTimerInLoop` / `TimerQueue::insert` acting on the set:
the new entry's key is the timer's current expiration, its `addr` the
pointer returned by `new Timer(...)`. -/
def insertTimer (addr : Int) (t : Timer) (l : List Entry) : List Entry :=
  insertEntry ⟨t.expiration, addr, t⟩ l

/-- Model of `TimerQueue::doTimer` (net/TimerQueue.cpp:55-80).  Walks the set in order;
for each entry whose timer's *current* expiration is `≤ now` it calls
`Timer::run`, then erases the entry iff the repeat count is now 0, and stops
at the first entry whose expiration is `> now`.  Returns the resulting set and
the sequence numbers of the timers whose callbacks fired, in firing order.
Note the C++ mutates the `Timer` through the pointer: the entry's `key` is
left unchanged even when `run` advanced the timer's expiration. -/
def doTimer (now : Timestamp) : List Entry → List Entry × List Int
  | [] => ([], [])
  | e :: rest =>
    if e.timer.expiration ≤ now then
      let (t', fired) := e.timer.run
      let fires := if fired then [e.timer.sequence] else []
      if t'.repeatCount = 0 then
        let (rest', seqs) := doTimer now rest
        (rest', fires ++ seqs)
      else
        let (rest', seqs) := doTimer now rest
        ({ e with timer := t' } :: rest', fires ++ seqs)
    else (e :: rest, [])

/-- Spec-side description of which callbacks fire, for comparison with
`doTimer`: the prefix of entries whose expiration is `≤ now`, minus the
cancelled ones, in list order. -/
def firedPrefixSpec (now : Timestamp) (l : List Entry) : List Int :=
  ((l.takeWhile fun e => e.timer.expiration ≤ now).filter
      fun e => !e.timer.canceled).map fun e => e.timer.sequence

/-! ### Event-mask constants (base/Platform.h) -/

def XPOLLIN : Nat := 1
def XPOLLPRI : Nat := 2
def XPOLLOUT : Nat := 4
def XPOLLERR : Nat := 8
def XPOLLHUP : Nat := 16
def XPOLLNVAL : Nat := 32
def XPOLLRDHUP : Nat := 8192

/-! ### TcpConnection (net/TcpConnection.h, TcpConnection.cpp) -/

/-- Model of `TcpConnection::StateE`. -/
inductive ConnState where
  | kDisconnected
  | kConnecting
  | kConnected
  | kDisconnecting
  deriving Repr, DecidableEq

/-- The slice of a `TcpConnection` the verified operations read and write:
its state, the owned channel's interest mask, the two byte buffers
(readable contents only), the high-water threshold and which of the optional
user callbacks are set.  Bytes are `Nat` (values of `char`). -/
structure TcpConn where
  state : ConnState
  channelEvents : Nat
  inputBuffer : List Nat
  outputBuffer : List Nat
  highWaterMark : Nat
  hasWriteCompleteCb : Bool
  hasHighWaterMarkCb : Bool
  deriving Repr, DecidableEq

/-- Model of `Channel::isWriting` for the connection's channel:
`m_events & kWriteEvent` with `kWriteEvent = XPOLLOUT`. -/
def TcpConn.isWriting (c : TcpConn) : Bool := c.channelEvents &&& XPOLLOUT != 0

/-- Observable actions a `TcpConnection` operation performs, in program
order. -/
inductive Effect where
  /-- Effect: `sockets::write` was called and reported `n` bytes written. -/
  | wrote (n : Nat)
  /-- Effect: `m_loop->queueInLoop(std::bind(m_writeCompleteCallback, ...))`. -/
  | queuedWriteComplete
  /-- Effect: `m_loop->queueInLoop(std::bind(m_highWaterMarkCallback, ..., n))`. -/
  | queuedHighWaterMark (n : Nat)
  /-- Effect: `m_loop->runInLoop(...)` queued a cross-thread task. -/
  | queuedTask
  /-- Effect: `m_channel->disableAll()` was called. -/
  | disabledAll
  /-- Effect: `m_connectionCallback(...)` invoked. -/
  | connectionCb
  /-- Effect: `m_closeCallback(...)` invoked. -/
  | closeCb
  /-- Effect: `m_messageCallback(sharedSelf, &m_inputBuffer, receiveTime)` invoked
  with the input buffer's readable contents and the receive timestamp. -/
  | messageCb (input : List Nat) (ts : Timestamp)
  /-- Effect: `sockets::getSocketError` queried and the error logged
  (`TcpConnection::handleError`'s own work). -/
  | sockErrorLogged
  deriving Repr, DecidableEq

/-- Result of the `sockets::write(fd, data, len)` call in `sendInLoop`:
either a byte count `n ≥ 0`, or `-1` with the errno class the code
distinguishes (`EWOULDBLOCK`; fatal `EPIPE`/`ECONNRESET`; anything else). -/
inductive WriteRes where
  | ok (n : Nat)
  | errWouldBlock
  | errFatal
  | errOther
  deriving Repr, DecidableEq

/-- Second half of `TcpConnection::sendInLoop` (TcpConnection.cpp:186-208):
given the direct-write outcome (`nwrote` bytes consumed, `fault` =
`faultError`), buffer the remainder.  If `!faultError && remaining > 0`:
queue the high-water-mark callback when
`oldLen + remaining >= m_highWaterMark && oldLen < m_highWaterMark` and the
callback is set; append the unwritten tail to `m_outputBuffer`; enable
write interest if not already writing. -/
def bufferRemainder (c : TcpConn) (data : List Nat) (nwrote : Nat)
    (fault : Bool) : TcpConn × List Effect :=
  let remaining := data.length - nwrote
  if !fault && remaining > 0 then
    let oldLen := c.outputBuffer.length
    let effs :=
      if oldLen + remaining ≥ c.highWaterMark && oldLen < c.highWaterMark
          && c.hasHighWaterMarkCb
      then [Effect.queuedHighWaterMark (oldLen + remaining)] else []
    let c' := { c with outputBuffer := c.outputBuffer ++ data.drop nwrote }
    if !c'.isWriting then
      ({ c' with channelEvents := c'.channelEvents ||| XPOLLOUT }, effs)
    else (c', effs)
  else (c, [])

/-- Model of `TcpConnection::sendInLoop(const void*, size_t)`
(TcpConnection.cpp:135-209).  `w` is the outcome of the `sockets::write`
syscall (consulted only when the direct write is attempted, i.e. when the
channel is not write-interested and the output buffer is empty).  If the
state is `kDisconnected` the request is dropped.  On a successful write of
`n` bytes, `remaining = len - nwrote` is `size_t` arithmetic: if `n > len`
it wraps to a huge value and the `remaining > len` guard returns early; if
`remaining == 0` and a write-complete callback is set, the callback is
queued.  On error, `nwrote = 0` and `faultError` is set for
`EPIPE`/`ECONNRESET`.  The remainder is then buffered by
`bufferRemainder`. -/
def sendInLoop (c : TcpConn) (data : List Nat) (w : WriteRes) :
    TcpConn × List Effect :=
  let len := data.length
  if c.state = ConnState.kDisconnected then (c, [])
  else if !c.isWriting && c.outputBuffer.length = 0 then
    match w with
    | WriteRes.ok n =>
      if n ≤ len then
        let effs := [Effect.wrote n] ++
          (if len - n = 0 && c.hasWriteCompleteCb
           then [Effect.queuedWriteComplete] else [])
        let (c', effs2) := bufferRemainder c data n false
        (c', effs ++ effs2)
      else
        -- size_t underflow: remaining > len, the safety check returns
        (c, [Effect.wrote n])
    | WriteRes.errWouldBlock =>
      let (c', effs2) := bufferRemainder c data 0 false
      (c', effs2)
    | WriteRes.errFatal =>
      let (c', effs2) := bufferRemainder c data 0 true
      (c', effs2)
    | WriteRes.errOther =>
      let (c', effs2) := bufferRemainder c data 0 false
      (c', effs2)
  else
    let (c', effs2) := bufferRemainder c data 0 false
    (c', effs2)

/-- Model of `TcpConnection::send(const void* data, int len)`
(TcpConnection.cpp:54-71): only when the state is `kConnected`; in the loop
thread it calls `sendInLoop(data, len)` directly, otherwise it copies the
payload into a string and queues the `sendInLoop` closure onto the loop. -/
def send (c : TcpConn) (inLoopThread : Bool) (data : List Nat)
    (w : WriteRes) : TcpConn × List Effect :=
  if c.state = ConnState.kConnected then
    if inLoopThread then sendInLoop c data w
    else (c, [Effect.queuedTask])
  else (c, [])

/-- Model of `TcpConnection::send(const string&)` (TcpConnection.cpp:73-90): same
dispatch as the pointer/length overload, on the string's bytes. -/
def sendString (c : TcpConn) (inLoopThread : Bool) (message : List Nat)
    (w : WriteRes) : TcpConn × List Effect :=
  if c.state = ConnState.kConnected then
    if inLoopThread then sendInLoop c message w
    else (c, [Effect.queuedTask])
  else (c, [])

/-- Model of `TcpConnection::send(ByteBuffer*)` (TcpConnection.cpp:93-111): when
`kConnected`, sends the caller buffer's readable bytes and retrieves them
all (in the loop thread: `sendInLoop(buf->peek(), buf->readableBytes())`
then `buf->retrieveAll()`; otherwise `buf->retrieveAllAsString()` is moved
into the queued closure).  Returns the connection, the caller's buffer
after the call, and the effects. -/
def sendBuffer (c : TcpConn) (inLoopThread : Bool) (buf : List Nat)
    (w : WriteRes) : TcpConn × List Nat × List Effect :=
  if c.state = ConnState.kConnected then
    if inLoopThread then
      let (c', effs) := sendInLoop c buf w
      (c', [], effs)
    else (c, [], [Effect.queuedTask])
  else (c, buf, [])

/-- Model of `TcpConnection::handleClose` (TcpConnection.cpp:396-421): returns
immediately when already `kDisconnected`; otherwise sets the state to
`kDisconnected`, disables all channel interest, and invokes the connection
callback then the close callback (holding a shared guard). -/
def handleClose (c : TcpConn) : TcpConn × List Effect :=
  if c.state = ConnState.kDisconnected then (c, [])
  else
    ({ c with state := ConnState.kDisconnected, channelEvents := 0 },
     [Effect.disabledAll, Effect.connectionCb, Effect.closeCb])

/-- Model of `TcpConnection::handleError` (TcpConnection.cpp:423-430): queries and
logs `SO_ERROR`, then calls `handleClose`. -/
def handleError (c : TcpConn) : TcpConn × List Effect :=
  let (c', effs) := handleClose c
  (c', Effect.sockErrorLogged :: effs)

/-- Outcome of `m_inputBuffer.readFd(fd, &savedErrno)` in `handleRead`:
`ok bytes` for a return of `n = bytes.length ≥ 0` (the bytes are appended to
the input buffer), `err` for `n < 0`. -/
inductive ReadFdRes where
  | ok (bytes : List Nat)
  | err
  deriving Repr, DecidableEq

/-- Model of `TcpConnection::handleRead` (TcpConnection.cpp:335-355): calls
`m_inputBuffer.readFd(m_channel->fd(), &savedErrno)`; on `n > 0` invokes the
message callback with the input buffer and the receive timestamp; on
`n == 0` calls `handleClose`; on `n < 0` calls `handleError` (which itself
ends in `handleClose`). -/
def handleRead (c : TcpConn) (ts : Timestamp) (rd : ReadFdRes) :
    TcpConn × List Effect :=
  match rd with
  | ReadFdRes.ok bytes =>
    if bytes.length > 0 then
      let c' := { c with inputBuffer := c.inputBuffer ++ bytes }
      (c', [Effect.messageCb c'.inputBuffer ts])
    else handleClose c
  | ReadFdRes.err => handleError c

/-! ### Channel (net/Channel.h, Channel.cpp) -/

/-- Which of a channel's four callbacks have been registered
(`std::function` non-emptiness of `m_readCallback` etc.). -/
structure ChannelCbs where
  hasRead : Bool
  hasWrite : Bool
  hasClose : Bool
  hasError : Bool
  deriving Repr, DecidableEq

/-- A callback invocation performed by `Channel::handleEvent`. -/
inductive CbCall where
  | close
  | error
  | read
  | write
  deriving Repr, DecidableEq

/-- Model of `Channel::handleEvent(Timestamp)` (Channel.cpp:842-874) on a ready-event
bitmask `revents`: the registered close callback if
`(revents & XPOLLHUP) && !(revents & XPOLLIN)`, then the error callback if
`revents & (XPOLLERR | XPOLLNVAL)`, then the read callback if
`revents & (XPOLLIN | XPOLLPRI | XPOLLRDHUP)`, then the write callback if
`revents & XPOLLOUT`; each only if set.  Returns the invocations in program
order. -/
def handleEvent (revents : Nat) (cbs : ChannelCbs) : List CbCall :=
  (if revents &&& XPOLLHUP != 0 && revents &&& XPOLLIN == 0 then
      (if cbs.hasClose then [CbCall.close] else [])
    else []) ++
  (if revents &&& (XPOLLERR ||| XPOLLNVAL) != 0 then
      (if cbs.hasError then [CbCall.error] else [])
    else []) ++
  (if revents &&& (XPOLLIN ||| XPOLLPRI ||| XPOLLRDHUP) != 0 then
      (if cbs.hasRead then [CbCall.read] else [])
    else []) ++
  (if revents &&& XPOLLOUT != 0 then
      (if cbs.hasWrite then [CbCall.write] else [])
    else [])

/-! ### SelectPoller (net/SelectPoller.h, SelectPoller.cpp) and
`Channel::remove` / `EventLoop::assertInLoopThread` -/

/-- Registration-state constants (SelectPoller.cpp:453-455). -/
def kNew : Int := -1
def kAdded : Int := 1
def kDeleted : Int := 2

/-- A `Channel*` value: the map `m_channels` stores pointers, which we model
as numeric identities. -/
abbrev ChannelId := Nat

/-- The fields of a `Channel` that `updateChannel` / `removeChannel` read and
write: its fd, its interest mask `m_events`, and the poller bookkeeping
`m_index`. -/
structure ChannelRec where
  fd : Int
  events : Nat
  index : Int
  deriving Repr, DecidableEq

/-- Model of `Channel::isNoneEvent`: `m_events == kNoneEvent` with `kNoneEvent = 0`. -/
def ChannelRec.isNoneEvent (c : ChannelRec) : Bool := c.events == 0

/-- The poller's mutable state: the `fd -> Channel*` map `m_channels` (an
association list with at most one binding per fd) and the bookkeeping
vector `m_events` of `(data.ptr, events)` pairs. -/
structure PollerState where
  channels : List (Int × ChannelId)
  events : List (ChannelId × Nat)
  deriving Repr, DecidableEq

/-- Lookup `m_channels.find(fd)`. -/
def lookupFd (m : List (Int × ChannelId)) (fd : Int) : Option ChannelId :=
  (m.find? fun p => p.1 == fd).map Prod.snd

/-- Insertion `m_channels[fd] = channel` at an fd not yet present. -/
def insertFd (m : List (Int × ChannelId)) (fd : Int) (cid : ChannelId) :
    List (Int × ChannelId) :=
  (fd, cid) :: m

/-- Erasure `m_channels.erase(fd)`: removes the binding, returning the new map and
the erased count. -/
def eraseFd (m : List (Int × ChannelId)) (fd : Int) :
    List (Int × ChannelId) × Nat :=
  let m' := m.filter fun p => p.1 != fd
  (m', m.length - m'.length)

/-- Operation `XEPOLL_CTL_MOD` on the bookkeeping vector: set the events of the first
entry whose `data.ptr` is `cid`; `none` if absent (update fails). -/
def modEvents (l : List (ChannelId × Nat)) (cid : ChannelId) (ev : Nat) :
    Option (List (ChannelId × Nat)) :=
  match l with
  | [] => none
  | p :: rest =>
    if p.1 == cid then some ((cid, ev) :: rest)
    else (modEvents rest cid ev).map fun r => p :: r

/-- Operation `XEPOLL_CTL_DEL` on the bookkeeping vector: erase the first entry whose
`data.ptr` is `cid`; `none` if absent (update fails). -/
def delEvents (l : List (ChannelId × Nat)) (cid : ChannelId) :
    Option (List (ChannelId × Nat)) :=
  match l with
  | [] => none
  | p :: rest =>
    if p.1 == cid then some rest
    else (delEvents rest cid).map fun r => p :: r

/-- Model of `SelectPoller::update(operation, channel)` (SelectPoller.cpp:714-761):
`ADD` pushes `(channel, channel->events())` and always succeeds; `DEL`
erases the first matching entry; `MOD` rewrites its events; both fail
(return `false`) when no entry matches. -/
def pollerUpdate (p : PollerState) (operation : Int) (cid : ChannelId)
    (c : ChannelRec) : Bool × PollerState :=
  if operation = 1 then (true, { p with events := p.events ++ [(cid, c.events)] })
  else if operation = 2 then
    match delEvents p.events cid with
    | some l => (true, { p with events := l })
    | none => (false, p)
  else if operation = 3 then
    match modEvents p.events cid c.events with
    | some l => (true, { p with events := l })
    | none => (false, p)
  else (false, p)

/-- Model of `SelectPoller::updateChannel(channel)` (SelectPoller.cpp:601-677).
Returns `(success, poller-state, channel)`; consistency-check failures log
and return `false` leaving both unchanged. -/
def updateChannel (p : PollerState) (cid : ChannelId) (c : ChannelRec) :
    Bool × PollerState × ChannelRec :=
  let index := c.index
  if index = kNew ∨ index = kDeleted then
    let fd := c.fd
    if index = kNew then
      if (lookupFd p.channels fd).isSome then (false, p, c)
      else
        let p' := { p with channels := insertFd p.channels fd cid }
        let c' := { c with index := kAdded }
        let (ok, p'') := pollerUpdate p' 1 cid c'
        (ok, p'', c')
    else
      match lookupFd p.channels fd with
      | none => (false, p, c)
      | some cid' =>
        if cid' ≠ cid then (false, p, c)
        else
          let c' := { c with index := kAdded }
          let (ok, p') := pollerUpdate p 1 cid c'
          (ok, p', c')
  else
    let fd := c.fd
    if (lookupFd p.channels fd).isNone ∨ lookupFd p.channels fd ≠ some cid
        ∨ index ≠ kAdded then
      (false, p, c)
    else
      if c.isNoneEvent then
        let (ok, p') := pollerUpdate p 2 cid c
        if ok then (true, p', { c with index := kDeleted })
        else (false, p', c)
      else
        let (ok, p') := pollerUpdate p 3 cid c
        (ok, p', c)

/-- Model of `SelectPoller::removeChannel(channel)` (SelectPoller.cpp:679-712):
returns without effect unless the fd is mapped to this very channel and the
channel's interest is none; then erases the fd binding (checking the erased
count is 1) and resets the channel's index to `kNew`.  (For `index ==
kAdded` the `update(XEPOLL_CTL_DEL, ...)` call is commented out in the
source.) -/
def removeChannel (p : PollerState) (cid : ChannelId) (c : ChannelRec) :
    PollerState × ChannelRec :=
  let fd := c.fd
  match lookupFd p.channels fd with
  | none => (p, c)
  | some cid' =>
    if cid' ≠ cid then (p, c)
    else if !c.isNoneEvent then (p, c)
    else
      let (m', n) := eraseFd p.channels fd
      if n ≠ 1 then ({ p with channels := m' }, c)
      else ({ p with channels := m' }, { c with index := kNew })

/-- An abort of the process. -/
inductive LoopEffect where
  | aborted
  deriving Repr, DecidableEq

/-- Modelled from the spec: `EventLoop::abortNotInLoopThread` (EventLoop.cpp
is not among the provided sources; the header EventLoop.h:149-157 declares
it and the spec §4.5/§7 states "A failed assertion aborts"): aborts the
process. -/
def abortNotInLoopThread : List LoopEffect := [LoopEffect.aborted]

/-- Model of `EventLoop::assertInLoopThread` (EventLoop.h:129-135): calls
`abortNotInLoopThread()` iff the calling thread is not the loop thread. -/
def assertInLoopThread (inLoopThread : Bool) : List LoopEffect :=
  if !inLoopThread then abortNotInLoopThread else []

/-- Model of `SelectPoller::updateChannel` together with its leading
`assertInLoopThread()`: on the wrong thread the process aborts (nothing
else runs); otherwise the update proceeds. -/
def updateChannelChecked (inLoopThread : Bool) (p : PollerState)
    (cid : ChannelId) (c : ChannelRec) :
    List LoopEffect × (Bool × PollerState × ChannelRec) :=
  if !inLoopThread then (abortNotInLoopThread, (false, p, c))
  else ([], updateChannel p cid c)

/-- Model of `Channel::remove` (Channel.cpp:834-840): returns without doing anything
unless `isNoneEvent()`; otherwise calls the loop's `removeChannel` (which
reaches the poller's `removeChannel`).  The in-loop context is recorded so
the absence of an abort is observable. -/
def channelRemove (inLoopThread : Bool) (p : PollerState) (cid : ChannelId)
    (c : ChannelRec) : List LoopEffect × (PollerState × ChannelRec) :=
  if !c.isNoneEvent then ([], (p, c))
  else if !inLoopThread then (abortNotInLoopThread, (p, c))
  else ([], removeChannel p cid c)

/-! ## Helper lemmas -/

/-- Lemma: `Timer::run` fires the callback iff the timer is not cancelled. -/
theorem Timer.run_fired (t : Timer) : t.run.2 = !t.canceled := by
  rw [Timer.run]
  split_ifs <;> simp_all [apply_ite Prod.snd]

/-- The strict `(key, addr)` order on entries is transitive. -/
theorem entryLtb_trans {a b c : Entry} (hab : entryLtb a b = true)
    (hbc : entryLtb b c = true) : entryLtb a c = true := by
  simp only [entryLtb, Bool.or_eq_true, Bool.and_eq_true, decide_eq_true_eq,
    beq_iff_eq] at *
  rcases hab with h1 | ⟨h1, h1'⟩ <;> rcases hbc with h2 | ⟨h2, h2'⟩
  · exact Or.inl (lt_trans h1 h2)
  · exact Or.inl (by rw [← h2]; exact h1)
  · exact Or.inl (by rw [h1]; exact h2)
  · exact Or.inr ⟨h1.trans h2, lt_trans h1' h2'⟩

/-- Enabling write interest (`m_events |= XPOLLOUT`) makes `isWriting`
true. -/
theorem lor_XPOLLOUT_and_ne_zero (ev : Nat) :
    ((ev ||| XPOLLOUT) &&& XPOLLOUT) ≠ 0 := by
  have h : XPOLLOUT = 2 ^ 2 := rfl
  rw [h, Nat.and_two_pow, Nat.testBit_lor, Nat.testBit_two_pow_self]
  simp

/-- Membership after ordered insertion. -/
theorem mem_insertEntry {y e : Entry} {l : List Entry}
    (h : y ∈ insertEntry e l) : y = e ∨ y ∈ l := by
  induction l with
  | nil => simpa [insertEntry] using h
  | cons x xs ih =>
    rw [insertEntry] at h
    split_ifs at h with h1 h2
    · exact List.mem_cons.mp h
    · rcases List.mem_cons.mp h with rfl | hy
      · exact Or.inr (List.mem_cons_self _ _)
      · rcases ih hy with h' | h'
        · exact Or.inl h'
        · exact Or.inr (List.mem_cons_of_mem x h')
    · exact Or.inr h

/-! ## Claims -/

/-- C1: `TimerQueue::doTimer` is claimed to delete every one-shot timer
(interval 0) after firing and to re-insert repeating timers under their new
expiration.  The code does neither: evaluated on a queue holding one timer
with expiration 0, interval 0 and the default repeat count −1 (the value the
lvalue `addTimer` overload always uses), `doTimer` at `now = 0` fires the
callback (sequence 1 appears in the fired list) yet returns the set still
containing the very same entry with unchanged expiration, so the timer fires
again on every subsequent `doTimer` — contradicting the claim and
TimerQueue.h's own documentation ("interval ... 0 for one-shot"). -/
theorem doTimer_keeps_fired_oneshot_timer :
    doTimer 0 [⟨0, 0, ⟨0, 0, -1, 1, false⟩⟩] =
      ([⟨0, 0, ⟨0, 0, -1, 1, false⟩⟩], [1]) := by
  decide

/-- C2 counterexample: the set key is `(expiration, Timer*)`, not
`(expiration, sequence)`.  Timer with sequence 1 (allocated at address 20)
is added first, the timer with sequence 2 (address 10) second; both expire
at 10.  `doTimer` fires them in address order `[2, 1]`, not in the insertion
order `[1, 2]` the claim requires. -/
theorem equal_expiration_timers_fire_in_addr_order :
    (doTimer 10 (insertTimer 10 ⟨10, 0, -1, 2, false⟩
        (insertTimer 20 ⟨10, 0, -1, 1, false⟩ []))).2 = [2, 1] ∧
    ([2, 1] : List Int) ≠ [1, 2] := by
  constructor
  · decide
  · decide

/-- C2 amended: the timer set (`std::set<std::pair<Timestamp, Timer*>>`)
orders entries lexicographically by `(expiration, timer address)` —
`insertEntry` preserves strict `(key, addr)` sortedness — and `doTimer`
fires the callbacks of the not-cancelled timers of the `≤ now` prefix in
set order; hence two timers with equal expiration fire in the order of
their addresses, which coincides with insertion order only when the
later-added timer has the larger address. -/
theorem timer_set_orders_by_expiration_then_addr :
    (∀ (e : Entry) (l : List Entry),
        l.Pairwise (fun a b => entryLtb a b = true) →
        (insertEntry e l).Pairwise (fun a b => entryLtb a b = true)) ∧
    (∀ (now : Timestamp) (l : List Entry),
        (doTimer now l).2 = firedPrefixSpec now l) := by
  constructor
  · intro e l h
    induction l with
    | nil => simp [insertEntry]
    | cons x xs ih =>
      rcases List.pairwise_cons.mp h with ⟨hx, hxs⟩
      rw [insertEntry]
      split_ifs with h1 h2
      · refine List.pairwise_cons.mpr ⟨?_, h⟩
        intro y hy
        rcases List.mem_cons.mp hy with rfl | hy
        · exact h1
        · exact entryLtb_trans h1 (hx y hy)
      · refine List.pairwise_cons.mpr ⟨?_, ih hxs⟩
        intro y hy
        rcases mem_insertEntry hy with rfl | hy
        · exact h2
        · exact hx y hy
      · exact h
  · intro now l
    induction l with
    | nil => rfl
    | cons e rest ih =>
      rw [doTimer]
      by_cases h : e.timer.expiration ≤ now
      · rw [if_pos h]
        have hf := Timer.run_fired e.timer
        rcases hrun : e.timer.run with ⟨t', fired⟩
        rw [hrun] at hf
        simp only [firedPrefixSpec, List.takeWhile_cons, decide_eq_true_eq]
        rw [if_pos h]
        by_cases hz : t'.repeatCount = 0 <;>
          by_cases hc : e.timer.canceled <;>
            simp_all [firedPrefixSpec, List.filter_cons]
      · rw [if_neg h]
        simp [firedPrefixSpec, List.takeWhile_cons, h]

/-- C2 amended, witness: inserting an entry into a concrete sorted
one-element set yields a sorted set, and on a concrete two-timer queue
`doTimer` fires exactly the not-cancelled `≤ now` prefix in set order. -/
theorem timer_set_orders_by_expiration_then_addr_witness :
    (insertEntry ⟨3, 1, ⟨3, 0, -1, 7, false⟩⟩
        [⟨5, 2, ⟨5, 0, -1, 8, false⟩⟩]).Pairwise
      (fun a b => entryLtb a b = true) ∧
    (doTimer 4 [⟨3, 1, ⟨3, 0, -1, 7, false⟩⟩, ⟨5, 2, ⟨5, 0, -1, 8, false⟩⟩]).2 =
      firedPrefixSpec 4 [⟨3, 1, ⟨3, 0, -1, 7, false⟩⟩,
        ⟨5, 2, ⟨5, 0, -1, 8, false⟩⟩] :=
  ⟨timer_set_orders_by_expiration_then_addr.1 _ _ (by decide),
   timer_set_orders_by_expiration_then_addr.2 4 _⟩

/-- C3 counterexample: on a `Connected` connection with empty output buffer,
no write interest, and a write-complete callback set, `send`ing a
zero-length payload is *not* the claimed no-op: the direct `sockets::write`
of 0 bytes returns 0, `remaining == 0`, and the write-complete callback is
queued (TcpConnection.cpp:161-164). -/
theorem send_zero_length_queues_writeComplete :
    (sendInLoop
        { state := ConnState.kConnected, channelEvents := XPOLLIN,
          inputBuffer := [], outputBuffer := [], highWaterMark := 67108864,
          hasWriteCompleteCb := true, hasHighWaterMarkCb := false }
        [] (WriteRes.ok 0)).2 =
      [Effect.wrote 0, Effect.queuedWriteComplete] ∧
    Effect.queuedWriteComplete ∈
      (sendInLoop
          { state := ConnState.kConnected, channelEvents := XPOLLIN,
            inputBuffer := [], outputBuffer := [], highWaterMark := 67108864,
            hasWriteCompleteCb := true, hasHighWaterMarkCb := false }
          [] (WriteRes.ok 0)).2 := by
  constructor
  · decide
  · decide

/-- C3 amended: for a `Connected` connection, `send` of a zero-length
payload writes no payload bytes, leaves the connection (in particular the
output buffer) unchanged, and queues no high-water-mark callback; but the
write-complete callback *is* queued exactly when the output buffer is
empty, the channel has no write interest, and the callback is set (the
zero-byte direct write counts as a completed send); in every other case
nothing is invoked or queued. -/
theorem send_zero_length_characterization (c : TcpConn)
    (h : c.state = ConnState.kConnected) :
    (sendInLoop c [] (WriteRes.ok 0)).1 = c ∧
    (∀ n, Effect.wrote n ∈ (sendInLoop c [] (WriteRes.ok 0)).2 → n = 0) ∧
    (∀ n, Effect.queuedHighWaterMark n ∉ (sendInLoop c [] (WriteRes.ok 0)).2) ∧
    (Effect.queuedWriteComplete ∈ (sendInLoop c [] (WriteRes.ok 0)).2 ↔
      c.isWriting = false ∧ c.outputBuffer = [] ∧
        c.hasWriteCompleteCb = true) := by
  have hs : c.state ≠ ConnState.kDisconnected := by rw [h]; intro hc; cases hc
  by_cases hw : c.isWriting
  · simp [sendInLoop, hs, hw, bufferRemainder]
  · by_cases hb : c.outputBuffer = []
    · by_cases hcb : c.hasWriteCompleteCb <;>
        simp [sendInLoop, hs, hw, hb, hcb, bufferRemainder]
    · have hlen : c.outputBuffer.length ≠ 0 := by
        simpa [List.length_eq_zero] using hb
      simp [sendInLoop, hs, hw, hb, hlen, bufferRemainder]

/-- C3 amended, witness: a concrete `Connected` connection with a nonempty
output buffer; the zero-length send leaves it unchanged, writes nothing and
queues nothing. -/
theorem send_zero_length_characterization_witness :
    (sendInLoop
        { state := ConnState.kConnected, channelEvents := XPOLLIN,
          inputBuffer := [], outputBuffer := [1, 2], highWaterMark := 16,
          hasWriteCompleteCb := true, hasHighWaterMarkCb := true }
        [] (WriteRes.ok 0)).1 =
      { state := ConnState.kConnected, channelEvents := XPOLLIN,
        inputBuffer := [], outputBuffer := [1, 2], highWaterMark := 16,
        hasWriteCompleteCb := true, hasHighWaterMarkCb := true } ∧
    (Effect.queuedWriteComplete ∈
      (sendInLoop
          { state := ConnState.kConnected, channelEvents := XPOLLIN,
            inputBuffer := [], outputBuffer := [1, 2], highWaterMark := 16,
            hasWriteCompleteCb := true, hasHighWaterMarkCb := true }
          [] (WriteRes.ok 0)).2 ↔
      (false = false ∧ ([1, 2] : List Nat) = [] ∧ true = true)) :=
  ⟨(send_zero_length_characterization _ rfl).1,
   (send_zero_length_characterization _ rfl).2.2.2⟩

/-- C4: second half of `sendInLoop`, for a nonempty remainder
(`nwrote < data.length`) surviving without fatal error, with a high-water
callback set: the callback is queued (once, with argument
`oldLen + remaining`) iff `oldLen < highWaterMark ≤ oldLen + remaining`;
the remainder is appended to the output buffer; and the channel has write
interest afterwards. -/
theorem sendInLoop_highWaterMark_crossing (c : TcpConn) (data : List Nat)
    (nwrote : Nat) (hlt : nwrote < data.length)
    (hcb : c.hasHighWaterMarkCb = true) :
    (List.count
        (Effect.queuedHighWaterMark
          (c.outputBuffer.length + (data.length - nwrote)))
        (bufferRemainder c data nwrote false).2 =
      if c.outputBuffer.length < c.highWaterMark ∧
          c.highWaterMark ≤ c.outputBuffer.length + (data.length - nwrote)
      then 1 else 0) ∧
    (Effect.queuedHighWaterMark
        (c.outputBuffer.length + (data.length - nwrote)) ∈
        (bufferRemainder c data nwrote false).2 ↔
      c.outputBuffer.length < c.highWaterMark ∧
        c.highWaterMark ≤ c.outputBuffer.length + (data.length - nwrote)) ∧
    (bufferRemainder c data nwrote false).1.outputBuffer =
      c.outputBuffer ++ data.drop nwrote ∧
    (bufferRemainder c data nwrote false).1.isWriting = true := by
  have hrem : 0 < data.length - nwrote := Nat.sub_pos_of_lt hlt
  have hout := lor_XPOLLOUT_and_ne_zero c.channelEvents
  by_cases hcross : c.outputBuffer.length < c.highWaterMark ∧
      c.highWaterMark ≤ c.outputBuffer.length + (data.length - nwrote)
  · obtain ⟨h1, h2⟩ := hcross
    by_cases hw : c.isWriting <;>
      simp_all [bufferRemainder, TcpConn.isWriting, h1, h2, hrem]
  · have hno : ¬(c.highWaterMark ≤
        c.outputBuffer.length + (data.length - nwrote) ∧
        c.outputBuffer.length < c.highWaterMark) :=
      fun hh => hcross ⟨hh.2, hh.1⟩
    by_cases hw : c.isWriting <;>
      simp_all [bufferRemainder, TcpConn.isWriting, hrem, and_comm] <;>
      (split <;> simp)

/-- C4 witness: appending exactly `highWaterMark = 2` bytes to an empty
output buffer queues the high-water callback exactly once, appends the
bytes, and enables write interest. -/
theorem sendInLoop_highWaterMark_crossing_witness :
    (0 : Nat) < 2 ∧
    List.count (Effect.queuedHighWaterMark 2)
        (bufferRemainder
          { state := ConnState.kConnected, channelEvents := XPOLLIN,
            inputBuffer := [], outputBuffer := [], highWaterMark := 2,
            hasWriteCompleteCb := false, hasHighWaterMarkCb := true }
          [7, 9] 0 false).2 = 1 :=
  ⟨by decide, by
    have h := (sendInLoop_highWaterMark_crossing
      { state := ConnState.kConnected, channelEvents := XPOLLIN,
        inputBuffer := [], outputBuffer := [], highWaterMark := 2,
        hasWriteCompleteCb := false, hasHighWaterMarkCb := true }
      [7, 9] 0 (by decide) rfl).1
    simpa using h⟩

/-- C5: for every ready-event bitmask and every combination of registered
callbacks, `Channel::handleEvent` invokes a sublist of
`[close, error, read, write]` (so the four dispatches happen in exactly
this order, each at most once), and each callback is invoked iff its
condition holds and it is registered: close iff `HUP ∧ ¬IN`, error iff
`ERR ∨ NVAL`, read iff `IN ∨ PRI ∨ RDHUP`, write iff `OUT`. -/
theorem handleEvent_dispatch (revents : Nat) (cbs : ChannelCbs) :
    List.Sublist (handleEvent revents cbs)
      [CbCall.close, CbCall.error, CbCall.read, CbCall.write] ∧
    (CbCall.close ∈ handleEvent revents cbs ↔
      revents &&& XPOLLHUP ≠ 0 ∧ revents &&& XPOLLIN = 0 ∧
        cbs.hasClose = true) ∧
    (CbCall.error ∈ handleEvent revents cbs ↔
      revents &&& (XPOLLERR ||| XPOLLNVAL) ≠ 0 ∧ cbs.hasError = true) ∧
    (CbCall.read ∈ handleEvent revents cbs ↔
      revents &&& (XPOLLIN ||| XPOLLPRI ||| XPOLLRDHUP) ≠ 0 ∧
        cbs.hasRead = true) ∧
    (CbCall.write ∈ handleEvent revents cbs ↔
      revents &&& XPOLLOUT ≠ 0 ∧ cbs.hasWrite = true) := by
  rw [handleEvent]
  split_ifs <;> simp_all

/-- C8: `TcpConnection::handleClose` is idempotent — after one call the
state is `kDisconnected`, so a second call returns at the early-exit,
changing nothing and invoking nothing, and the combined observable effects
of two calls equal those of one. -/
theorem handleClose_idempotent (c : TcpConn) :
    handleClose (handleClose c).1 = ((handleClose c).1, []) ∧
    (handleClose c).2 ++ (handleClose (handleClose c).1).2 =
      (handleClose c).2 := by
  by_cases h : c.state = ConnState.kDisconnected <;>
    simp [handleClose, h]

/-- C9: `TcpConnection::handleRead` dispatches on the `readFd` result: with
`n > 0` (a nonempty byte list) it appends the bytes to the input buffer and
invokes the message callback with the buffer contents and the receive
timestamp; with `n == 0` it is exactly `handleClose`; with `n < 0` it is
exactly `handleError`, whose effect trace is the socket-error handling
followed by `handleClose`'s trace. -/
theorem handleRead_dispatch (c : TcpConn) (ts : Timestamp) :
    (∀ (b : Nat) (bs : List Nat),
      handleRead c ts (ReadFdRes.ok (b :: bs)) =
        ({ c with inputBuffer := c.inputBuffer ++ b :: bs },
          [Effect.messageCb (c.inputBuffer ++ b :: bs) ts])) ∧
    handleRead c ts (ReadFdRes.ok []) = handleClose c ∧
    handleRead c ts ReadFdRes.err = handleError c ∧
    (handleRead c ts ReadFdRes.err).2 =
      Effect.sockErrorLogged :: (handleClose c).2 := by
  refine ⟨fun b bs => ?_, rfl, rfl, ?_⟩
  · simp [handleRead]
  · simp [handleRead, handleError]

/-- C10: every `send` overload (`const void*`+len, `const string&`,
`ByteBuffer*`) checks `m_state == kConnected` and otherwise does nothing at
all: the connection is unchanged, no effect (no socket write, no callback,
no queued task) is produced, and the `ByteBuffer*` overload leaves the
caller's buffer unretrieved. -/
theorem send_not_connected_is_noop (c : TcpConn)
    (h : c.state ≠ ConnState.kConnected) (inLoopThread : Bool)
    (data buf : List Nat) (w : WriteRes) :
    send c inLoopThread data w = (c, []) ∧
    sendString c inLoopThread data w = (c, []) ∧
    sendBuffer c inLoopThread buf w = (c, buf, []) := by
  refine ⟨?_, ?_, ?_⟩ <;> simp [send, sendString, sendBuffer, h]

/-- C10 witness: a concrete `kDisconnecting` connection; every overload is
a no-op. -/
theorem send_not_connected_is_noop_witness :
    send
        { state := ConnState.kDisconnecting, channelEvents := XPOLLIN,
          inputBuffer := [], outputBuffer := [3], highWaterMark := 16,
          hasWriteCompleteCb := true, hasHighWaterMarkCb := true }
        true [1, 2] (WriteRes.ok 2) =
      ({ state := ConnState.kDisconnecting, channelEvents := XPOLLIN,
         inputBuffer := [], outputBuffer := [3], highWaterMark := 16,
         hasWriteCompleteCb := true, hasHighWaterMarkCb := true }, []) ∧
    sendBuffer
        { state := ConnState.kDisconnecting, channelEvents := XPOLLIN,
          inputBuffer := [], outputBuffer := [3], highWaterMark := 16,
          hasWriteCompleteCb := true, hasHighWaterMarkCb := true }
        true [9] (WriteRes.ok 1) =
      ({ state := ConnState.kDisconnecting, channelEvents := XPOLLIN,
         inputBuffer := [], outputBuffer := [3], highWaterMark := 16,
         hasWriteCompleteCb := true, hasHighWaterMarkCb := true }, [9], []) :=
  ⟨(send_not_connected_is_noop _ (by decide) true [1, 2] [9]
      (WriteRes.ok 2)).1,
   (send_not_connected_is_noop _ (by decide) true [1, 2] [9]
      (WriteRes.ok 1)).2.2⟩

/-- C6 counterexample: two of the three alleged aborts do not happen.  In
the loop thread, `SelectPoller::updateChannel` on a channel with index
`kNew` (fd 5, already present in the map bound to another channel) merely
logs and returns `false`, leaving poller and channel untouched and not
aborting (SelectPoller.cpp:616-621); and `Channel::remove` on a channel
whose interest mask is nonzero returns immediately without any effect and
without aborting (Channel.cpp:836-837). -/
theorem updateChannel_duplicate_and_remove_do_not_abort :
    updateChannelChecked true ⟨[(5, 0)], []⟩ 1 ⟨5, 1, kNew⟩ =
      ([], (false, ⟨[(5, 0)], []⟩, ⟨5, 1, kNew⟩)) ∧
    channelRemove true ⟨[(5, 0)], []⟩ 0 ⟨5, 1, kAdded⟩ =
      ([], (⟨[(5, 0)], []⟩, ⟨5, 1, kAdded⟩)) := by
  constructor
  · decide
  · decide

/-- C6 amended: of the three programming errors only the wrong-thread call
aborts (via `assertInLoopThread` → `abortNotInLoopThread`); registering via
`updateChannel` a `kNew` channel whose fd is already in the poller's map
logs and returns `false` without aborting or changing any state; and
`Channel::remove` while the interest mask is nonzero returns without
removing anything and without aborting. -/
theorem programming_error_handling (p : PollerState) (cid : ChannelId)
    (c : ChannelRec) :
    assertInLoopThread false = [LoopEffect.aborted] ∧
    updateChannelChecked false p cid c =
      ([LoopEffect.aborted], (false, p, c)) ∧
    (c.index = kNew → (lookupFd p.channels c.fd).isSome = true →
      updateChannelChecked true p cid c = ([], (false, p, c))) ∧
    (c.events ≠ 0 → ∀ inLoopThread : Bool,
      channelRemove inLoopThread p cid c = ([], (p, c))) := by
  refine ⟨rfl, rfl, fun hidx hfd => ?_, fun hev inLoop => ?_⟩
  · have : c.index = kNew ∨ c.index = kDeleted := Or.inl hidx
    simp [updateChannelChecked, updateChannel, hidx, hfd, this, kNew]
  · simp [channelRemove, ChannelRec.isNoneEvent, hev]

/-- C6 amended, witness: the concrete duplicate-registration and
busy-interest-remove inputs, with the hypotheses discharged. -/
theorem programming_error_handling_witness :
    (ChannelRec.index ⟨5, 1, kNew⟩ = kNew ∧
      (lookupFd (PollerState.channels ⟨[(5, 0)], []⟩) 5).isSome = true) ∧
    updateChannelChecked true ⟨[(5, 0)], []⟩ 1 ⟨5, 1, kNew⟩ =
      ([], (false, ⟨[(5, 0)], []⟩, ⟨5, 1, kNew⟩)) ∧
    channelRemove false ⟨[(5, 0)], []⟩ 1 ⟨5, 1, kNew⟩ =
      ([], (⟨[(5, 0)], []⟩, ⟨5, 1, kNew⟩)) :=
  ⟨⟨rfl, by decide⟩,
   (programming_error_handling ⟨[(5, 0)], []⟩ 1 ⟨5, 1, kNew⟩).2.2.1 rfl
     (by decide),
   (programming_error_handling ⟨[(5, 0)], []⟩ 1 ⟨5, 1, kNew⟩).2.2.2
     (by decide) false⟩

/-- Looking up an fd straight after `insertFd` finds the new binding. -/
theorem lookupFd_insertFd (m : List (Int × ChannelId)) (fd : Int)
    (cid : ChannelId) : lookupFd (insertFd m fd cid) fd = some cid := by
  simp [lookupFd, insertFd, List.find?]

/-- After erasing an fd, looking it up fails. -/
theorem lookupFd_eraseFd (m : List (Int × ChannelId)) (fd : Int) :
    lookupFd (eraseFd m fd).1 fd = none := by
  rw [lookupFd, eraseFd]
  have hall : ∀ x ∈ m.filter (fun p => p.1 != fd), ¬((x.1 == fd) = true) := by
    intro x hx
    have hkeep := List.of_mem_filter hx
    simp only [bne_iff_ne, ne_eq] at hkeep
    simp [hkeep]
  rw [List.find?_eq_none.mpr hall]
  rfl

/-- With distinct keys (a `std::map` invariant) and the fd present, erasing
it removes exactly one binding. -/
theorem eraseFd_count_one {m : List (Int × ChannelId)} {fd : Int}
    {cid : ChannelId} (hnd : m.Pairwise fun a b => a.1 ≠ b.1)
    (hfind : lookupFd m fd = some cid) : (eraseFd m fd).2 = 1 := by
  induction m with
  | nil => simp [lookupFd] at hfind
  | cons x xs ih =>
    rcases List.pairwise_cons.mp hnd with ⟨hx, hxs⟩
    by_cases hfd : x.1 = fd
    · have hfilter : xs.filter (fun p => p.1 != fd) = xs := by
        rw [List.filter_eq_self]
        intro a ha
        have hne : a.1 ≠ fd := fun h => hx a ha (hfd.trans h.symm)
        simpa [bne_iff_ne] using hne
      simp [eraseFd, List.filter_cons, hfd, hfilter]
    · have htail : lookupFd xs fd = some cid := by
        simpa [lookupFd, List.find?_cons, hfd] using hfind
      have hlen := List.length_filter_le (fun p : Int × ChannelId => p.1 != fd) xs
      have hxcount := ih hxs htail
      rw [eraseFd] at hxcount ⊢
      simp only [List.filter_cons, bne_iff_ne, ne_eq, hfd,
        not_false_eq_true, decide_True, if_true] at *
      simp only [List.length_cons]
      omega

/-- C7: the registration invariant between a poller and its channels.
(1) Whenever `updateChannel` succeeds, afterwards the poller's map sends the
channel's fd to this very channel and the channel's index is `kAdded` or
`kDeleted`.  (2) `updateChannel` on a `kNew` channel whose fd is absent
succeeds, inserts the binding and sets the index to `kAdded`.
(3) A successful `updateChannel` on a `kAdded` channel with no interest
keeps the map binding and sets the index to `kDeleted`.  (4) On a map with
distinct fds (the `std::map` invariant) holding the channel,
`removeChannel` of a no-interest channel erases the binding and resets the
index to `kNew`. -/
theorem poller_channel_map_invariant (p : PollerState) (cid : ChannelId)
    (c : ChannelRec) :
    ((updateChannel p cid c).1 = true →
      lookupFd (updateChannel p cid c).2.1.channels c.fd = some cid ∧
      ((updateChannel p cid c).2.2.index = kAdded ∨
        (updateChannel p cid c).2.2.index = kDeleted)) ∧
    (c.index = kNew → lookupFd p.channels c.fd = none →
      (updateChannel p cid c).1 = true ∧
      (updateChannel p cid c).2.1.channels = insertFd p.channels c.fd cid ∧
      (updateChannel p cid c).2.2.index = kAdded) ∧
    (c.index = kAdded → c.events = 0 → lookupFd p.channels c.fd = some cid →
      (updateChannel p cid c).1 = true →
      (updateChannel p cid c).2.1.channels = p.channels ∧
      (updateChannel p cid c).2.2.index = kDeleted) ∧
    (p.channels.Pairwise (fun a b => a.1 ≠ b.1) →
      lookupFd p.channels c.fd = some cid → c.events = 0 →
      lookupFd (removeChannel p cid c).1.channels c.fd = none ∧
      (removeChannel p cid c).2.index = kNew) := by
  refine ⟨?_, ?_, ?_, ?_⟩
  · -- (1) general success postcondition
    intro hsucc
    by_cases h1 : c.index = kNew ∨ c.index = kDeleted
    · by_cases h2 : c.index = kNew
      · by_cases h3 : (lookupFd p.channels c.fd).isSome
        · simp [updateChannel, h1, h2, h3] at hsucc
        · constructor
          · simp [updateChannel, h1, h2, h3, pollerUpdate, lookupFd_insertFd]
          · simp [updateChannel, h1, h2, h3, pollerUpdate]
      · cases hl : lookupFd p.channels c.fd with
        | none => simp [updateChannel, h1, h2, hl] at hsucc
        | some cid' =>
          have h2' : c.index = kDeleted := h1.resolve_left h2
          by_cases h4 : cid' = cid
          · subst h4
            constructor
            · simp [updateChannel, h1, h2, h2', hl, pollerUpdate, kNew,
                kDeleted, kAdded]
            · simp [updateChannel, h1, h2, h2', hl, pollerUpdate, kNew,
                kDeleted, kAdded]
          · simp [updateChannel, h1, h2, h2', hl, h4] at hsucc
    · by_cases h5 : lookupFd p.channels c.fd = none ∨
          lookupFd p.channels c.fd ≠ some cid ∨ c.index ≠ kAdded
      · have hfail : ¬(updateChannel p cid c).1 = true := by
          simp [updateChannel, h1, h5]
        exact absurd hsucc hfail
      · push_neg at h5
        obtain ⟨h5a, h5b, h5c⟩ := h5
        by_cases h6 : c.isNoneEvent
        · cases hd : delEvents p.events cid with
          | none =>
            simp [updateChannel, h1, h5a, h5b, h5c, h6, pollerUpdate,
              hd, kNew, kDeleted, kAdded] at hsucc
          | some l =>
            constructor
            · simp [updateChannel, h1, h5a, h5b, h5c, h6, pollerUpdate,
                hd, kNew, kDeleted, kAdded]
            · simp [updateChannel, h1, h5a, h5b, h5c, h6, pollerUpdate,
                hd, kNew, kDeleted, kAdded]
        · cases hm : modEvents p.events cid c.events with
          | none =>
            simp [updateChannel, h1, h5a, h5b, h5c, h6, pollerUpdate,
              hm, kNew, kDeleted, kAdded] at hsucc
          | some l =>
            constructor
            · simp [updateChannel, h1, h5a, h5b, h5c, h6, pollerUpdate,
                hm, kNew, kDeleted, kAdded]
            · simp [updateChannel, h1, h5a, h5b, h5c, h6, pollerUpdate,
                hm, h5c, kNew, kDeleted, kAdded]
  · -- (2) fresh registration
    intro hidx habs
    have h1 : c.index = kNew ∨ c.index = kDeleted := Or.inl hidx
    have h3 : ¬(lookupFd p.channels c.fd).isSome = true := by
      simp [habs]
    refine ⟨?_, ?_, ?_⟩ <;>
      simp [updateChannel, h1, hidx, h3, pollerUpdate]
  · -- (3) deregistration keeps the map binding
    intro hidx hev hl hsucc
    have h1 : ¬(c.index = kNew ∨ c.index = kDeleted) := by
      rw [hidx]
      decide
    have h6 : c.isNoneEvent = true := by
      simp [ChannelRec.isNoneEvent, hev]
    cases hd : delEvents p.events cid with
    | none =>
      simp [updateChannel, h1, hl, hidx, h6, pollerUpdate, hd, kNew,
        kDeleted, kAdded] at hsucc
    | some l =>
      constructor
      · simp [updateChannel, h1, hl, hidx, h6, pollerUpdate, hd, kNew,
          kDeleted, kAdded]
      · simp [updateChannel, h1, hl, hidx, h6, pollerUpdate, hd, kNew,
          kDeleted, kAdded]
  · -- (4) removal erases the binding and resets the index
    intro hnd hl hev
    have h6 : c.isNoneEvent = true := by
      simp [ChannelRec.isNoneEvent, hev]
    have hcount := eraseFd_count_one hnd hl
    constructor
    · simp [removeChannel, hl, h6, hcount, lookupFd_eraseFd]
    · simp [removeChannel, hl, h6, hcount]

/-- C7 witness: a fresh channel (fd 5) registered into an empty poller,
then a no-interest update and removal on a concrete one-entry poller; each
hypothesis is discharged at the concrete input. -/
theorem poller_channel_map_invariant_witness :
    (lookupFd (updateChannel ⟨[], []⟩ 0 ⟨5, 1, kNew⟩).2.1.channels 5 =
        some 0 ∧
      ((updateChannel ⟨[], []⟩ 0 ⟨5, 1, kNew⟩).2.2.index = kAdded ∨
        (updateChannel ⟨[], []⟩ 0 ⟨5, 1, kNew⟩).2.2.index = kDeleted)) ∧
    ((updateChannel ⟨[(5, 0)], [(0, 1)]⟩ 0 ⟨5, 0, kAdded⟩).2.1.channels =
        PollerState.channels ⟨[(5, 0)], [(0, 1)]⟩ ∧
      (updateChannel ⟨[(5, 0)], [(0, 1)]⟩ 0 ⟨5, 0, kAdded⟩).2.2.index =
        kDeleted) ∧
    (lookupFd
        (removeChannel ⟨[(5, 0)], [(0, 1)]⟩ 0 ⟨5, 0, kAdded⟩).1.channels 5 =
        none ∧
      (removeChannel ⟨[(5, 0)], [(0, 1)]⟩ 0 ⟨5, 0, kAdded⟩).2.index =
        kNew) :=
  ⟨(poller_channel_map_invariant ⟨[], []⟩ 0 ⟨5, 1, kNew⟩).1 (by decide),
   (poller_channel_map_invariant ⟨[(5, 0)], [(0, 1)]⟩ 0
      ⟨5, 0, kAdded⟩).2.2.1 rfl rfl (by decide) (by decide),
   (poller_channel_map_invariant ⟨[(5, 0)], [(0, 1)]⟩ 0
      ⟨5, 0, kAdded⟩).2.2.2 (List.pairwise_singleton _ _) (by decide) rfl⟩

end Fileserver
